import Mathlib

/-!
Shallow embedding of the chat server in `src/main.py` (mi-tec-chat).

The embedding covers the parts the specification's claims are about:

* the `ConnectionManager` session registry (`active_connections`, a Python
  dict from client id to websocket; we model the ordered key list, since
  every delivery is addressed by key),
* the persistence helpers `guardar_mensaje_db`, `borrar_mensaje_db`,
  `obtener_mensajes_db`, `obtener_info_grupo_db` (SQLite is modelled as an
  in-memory record: message rows plus the autoincrement counter, and the
  group table),
* the per-event body of `websocket_endpoint` (the `while True` receive
  loop), including its behaviour on events with missing required fields
  (Python raises `KeyError`, which the endpoint's `try` block — which only
  catches `WebSocketDisconnect` — does not handle),
* the outbound JSON envelopes built by `json.dumps({...})`, modelled as
  association lists of string keys so that the wire field names are part of
  the model,
* a variant of the broadcast loop in which `send_text` may raise for a
  given set of connections, to settle the claims about mid-broadcast send
  failures (the Python loops contain no try/except around a send).
-/

namespace MiTecChat

/-- JSON values, as produced by `json.dumps` in `src/main.py`. -/
inductive JVal where
  | str (s : String)
  | num (n : Nat)
  | bool (b : Bool)
  | arr (elems : List JVal)

/-- A JSON object: ordered association list of string keys, mirroring the
Python dict literals passed to `json.dumps`. -/
abbrev Json := List (String × JVal)

/-- The key list of `ConnectionManager.active_connections`. The dict maps
client id to websocket handle; each delivery is addressed by key, so the
ordered key list is the whole observable state. -/
abbrev Registry := List String

namespace ConnectionManager

/-- `self.active_connections[client_id] = websocket` (from `connect`):
a Python dict assignment keeps the key's position if present, otherwise
appends the key. -/
def connect (reg : Registry) (client_id : String) : Registry :=
  if client_id ∈ reg then reg else reg ++ [client_id]

/-- `disconnect`: `if client_id in self.active_connections: del ...`. -/
def disconnect (reg : Registry) (client_id : String) : Registry :=
  if client_id ∈ reg then reg.erase client_id else reg

end ConnectionManager

/-- The `{"type": "STATUS", "online_users": [...]}` object built in
`broadcast_online_list`. -/
def statusMsg (online_users : List String) : Json :=
  [("type", JVal.str "STATUS"), ("online_users", JVal.arr (online_users.map JVal.str))]

/-- The `{"type": "CHAT", ...}` object built in `websocket_endpoint`. -/
def chatMsg (id : Nat) (sender recipient message timestamp : String)
    (is_group : Bool) : Json :=
  [("type", JVal.str "CHAT"), ("id", JVal.num id), ("sender", JVal.str sender),
   ("recipient", JVal.str recipient), ("message", JVal.str message),
   ("timestamp", JVal.str timestamp), ("is_group", JVal.bool is_group)]

/-- The `{"type": "DELETE", "id": msg_id}` object. -/
def deleteMsg (id : Nat) : Json :=
  [("type", JVal.str "DELETE"), ("id", JVal.num id)]

/-- `ConnectionManager.broadcast`: send to every connection, in dict order.
A send is recorded as (key identity, envelope). -/
def broadcast (reg : Registry) (message_json : Json) : List (String × Json) :=
  reg.map (fun cid => (cid, message_json))

/-- `ConnectionManager.send_personal_message`: send iff the recipient id is
a key of the dict. -/
def send_personal_message (reg : Registry) (message_json : Json)
    (recipient_id : String) : List (String × Json) :=
  if recipient_id ∈ reg then [(recipient_id, message_json)] else []

/-- `ConnectionManager.broadcast_to_group`: iterate the member list, send to
each member who is a key of the dict. -/
def broadcast_to_group (reg : Registry) (message_json : Json)
    (members_list : List String) : List (String × Json) :=
  (members_list.filter (fun m => decide (m ∈ reg))).map (fun m => (m, message_json))

/-- `ConnectionManager.broadcast_online_list`: snapshot the key list and
broadcast a STATUS envelope to every connection. -/
def broadcast_online_list (reg : Registry) : List (String × Json) :=
  broadcast reg (statusMsg reg)

/-- A row of the `mensajes` table. -/
structure StoredMsg where
  id : Nat
  sender : String
  recipient : String
  message : String
  timestamp : String
  is_group : Bool
deriving DecidableEq

/-- A row of the `grupos` table (`creador`, decoded `miembros`). -/
structure Grupo where
  creador : String
  miembros : List String
deriving DecidableEq

/-- The chat.db state the claims touch: message rows, the autoincrement
counter behind `lastrowid`, and the group table keyed by `nombre`. -/
structure DB where
  mensajes : List StoredMsg
  next_id : Nat
  grupos : List (String × Grupo)
deriving DecidableEq

/-- `guardar_mensaje_db`: INSERT the row, return `lastrowid`. -/
def guardar_mensaje_db (db : DB) (sender recipient message timestamp : String)
    (is_group : Bool) : Nat × DB :=
  let nuevo_id := db.next_id
  (nuevo_id,
   { db with
      mensajes := db.mensajes ++ [⟨nuevo_id, sender, recipient, message, timestamp, is_group⟩],
      next_id := db.next_id + 1 })

/-- `borrar_mensaje_db`: `DELETE FROM mensajes WHERE id = ? AND sender = ?`,
return `rowcount > 0`. -/
def borrar_mensaje_db (db : DB) (msg_id : Nat) (sender : String) : Bool × DB :=
  let restantes := db.mensajes.filter (fun m => !decide (m.id = msg_id ∧ m.sender = sender))
  let borrados := db.mensajes.length - restantes.length
  (decide (0 < borrados), { db with mensajes := restantes })

/-- `obtener_mensajes_db`: SELECT every message row (the `/historial`
endpoint). -/
def obtener_mensajes_db (db : DB) : List StoredMsg :=
  db.mensajes

/-- `obtener_info_grupo_db`: SELECT the group row by primary key `nombre`,
`None` when absent. -/
def obtener_info_grupo_db (db : DB) (nombre_grupo : String) : Option Grupo :=
  (db.grupos.find? (fun g => g.1 == nombre_grupo)).map (fun g => g.2)

/-- One parsed inbound JSON event, with every field optional exactly as
`data_json.get` / `data_json[...]` treat it. -/
structure InEvent where
  action : Option String
  id : Option Nat
  recipient : Option String
  message : Option String
  is_group : Option Bool
deriving DecidableEq

/-- Result of handling one inbound event inside the `while True` loop:
either the event was handled (updated db, list of sends performed), or a
required field was missing and `data_json[...]` raised `KeyError`. -/
inductive HandleResult where
  | ok (db : DB) (sends : List (String × Json))
  | keyError

/-- The body of the `while True` loop of `websocket_endpoint`, for one
received event.  `tipo = data_json.get("action", "message")`; the delete
branch reads `data_json["id"]`, the message branch reads
`data_json["recipient"]` and `data_json["message"]` (KeyError when absent)
and `data_json.get("is_group", False)`. -/
def handleEvent (reg : Registry) (db : DB) (client_id : String) (ev : InEvent)
    (hora_actual : String) : HandleResult :=
  let tipo := ev.action.getD "message"
  if tipo = "delete" then
    match ev.id with
    | none => .keyError
    | some msg_id =>
      let r := borrar_mensaje_db db msg_id client_id
      if r.1 then .ok r.2 (broadcast reg (deleteMsg msg_id))
      else .ok r.2 []
  else
    match ev.recipient with
    | none => .keyError
    | some recipient =>
      match ev.message with
      | none => .keyError
      | some message =>
        let is_group := ev.is_group.getD false
        let r := guardar_mensaje_db db client_id recipient message hora_actual is_group
        let nuevo_id := r.1
        let db2 := r.2
        let resp := chatMsg nuevo_id client_id recipient message hora_actual is_group
        if recipient = "Chat General" then .ok db2 (broadcast reg resp)
        else if is_group then
          match obtener_info_grupo_db db2 recipient with
          | some info_grupo => .ok db2 (broadcast_to_group reg resp info_grupo.miembros)
          | none => .ok db2 []
        else .ok db2 (send_personal_message reg resp recipient ++
                      send_personal_message reg resp client_id)

/-- Whether the event is missing a field that the handler reads with
`data_json[...]` (which raises `KeyError` when absent): `id` for a delete
event, `recipient` or `message` for a message event. -/
def requiredFieldMissing (ev : InEvent) : Bool :=
  if ev.action.getD "message" = "delete" then ev.id.isNone
  else ev.recipient.isNone || ev.message.isNone

/-- Outcome of running the receive loop over a finite list of inbound
events: every event handled, or the loop ended by an uncaught `KeyError`
(the endpoint's `except` clause only catches `WebSocketDisconnect`, so the
remaining events are never received and `manager.disconnect` is not run). -/
inductive LoopOutcome where
  | allHandled (db : DB) (sends : List (String × Json))
  | crashed (db : DB) (sends : List (String × Json)) (remaining : List InEvent)

/-- Whether the loop handled every event. -/
def LoopOutcome.handledAll : LoopOutcome → Bool
  | .allHandled _ _ => true
  | .crashed _ _ _ => false

/-- The `while True` receive loop of `websocket_endpoint`, run over a finite
list of inbound events.  The registry is not mutated by event handling, so
it is a fixed parameter. -/
def runLoop (reg : Registry) (client_id : String) (hora_actual : String) :
    DB → List InEvent → LoopOutcome
  | db, [] => .allHandled db []
  | db, ev :: rest =>
    match handleEvent reg db client_id ev hora_actual with
    | .keyError => .crashed db [] rest
    | .ok db2 sends =>
      match runLoop reg client_id hora_actual db2 rest with
      | .allHandled db3 sends2 => .allHandled db3 (sends ++ sends2)
      | .crashed db3 sends2 rem => .crashed db3 (sends ++ sends2) rem

/-- `manager.connect` as called at the top of `websocket_endpoint`: accept,
insert into the dict, then `broadcast_online_list`. -/
def onConnect (reg : Registry) (client_id : String) :
    Registry × List (String × Json) :=
  let reg2 := ConnectionManager.connect reg client_id
  (reg2, broadcast_online_list reg2)

/-- The `except WebSocketDisconnect` handler of `websocket_endpoint`:
`manager.disconnect(client_id)` then `broadcast_online_list`. -/
def onDisconnect (reg : Registry) (client_id : String) :
    Registry × List (String × Json) :=
  let reg2 := ConnectionManager.disconnect reg client_id
  (reg2, broadcast_online_list reg2)

/-- A connect or disconnect operation on the session registry. -/
inductive Op where
  | connect (id : String)
  | disconnect (id : String)
deriving DecidableEq

/-- Apply one operation to the registry. -/
def applyOp (reg : Registry) : Op → Registry
  | .connect id => ConnectionManager.connect reg id
  | .disconnect id => ConnectionManager.disconnect reg id

/-- Run a sequence of operations on the initially empty registry. -/
def runOps (ops : List Op) : Registry :=
  ops.foldl applyOp []

/-- The most recent operation in the sequence that mentions `id`:
`some true` for a connect, `some false` for a disconnect, `none` when `id`
is never mentioned.  This is the specification's characterisation of the
online set, not code. -/
def lastAction (ops : List Op) (id : String) : Option Bool :=
  ops.foldl
    (fun acc op =>
      match op with
      | .connect j => if j = id then some true else acc
      | .disconnect j => if j = id then some false else acc)
    none

/-- Model of `ConnectionManager.broadcast` when `send_text` raises for the
handles in `broken` (e.g. a websocket closed mid-broadcast): the Python
`for` loop has no try/except, so the first failing send aborts the loop and
the exception propagates.  Returns the identities actually sent to, in
order, and whether the loop was aborted by an exception. -/
def broadcastFallible (broken : List String) : Registry → List String × Bool
  | [] => ([], false)
  | cid :: rest =>
    if cid ∈ broken then ([], true)
    else
      let r := broadcastFallible broken rest
      (cid :: r.1, r.2)

/-! Helper lemmas about the session registry. -/

theorem mem_connect (reg : Registry) (i j : String) :
    i ∈ ConnectionManager.connect reg j ↔ i ∈ reg ∨ i = j := by
  simp only [ConnectionManager.connect]
  split
  · next h =>
    constructor
    · exact Or.inl
    · rintro (h1 | rfl)
      · exact h1
      · exact h
  · simp [List.mem_append]

theorem mem_disconnect (reg : Registry) (hreg : reg.Nodup) (i j : String) :
    i ∈ ConnectionManager.disconnect reg j ↔ i ∈ reg ∧ i ≠ j := by
  simp only [ConnectionManager.disconnect]
  split
  · next h =>
    rw [hreg.mem_erase_iff]
    tauto
  · next h =>
    constructor
    · intro hi
      exact ⟨hi, fun e => h (e ▸ hi)⟩
    · exact fun hi => hi.1

theorem connect_nodup (reg : Registry) (hreg : reg.Nodup) (j : String) :
    (ConnectionManager.connect reg j).Nodup := by
  simp only [ConnectionManager.connect]
  split
  · exact hreg
  · next h =>
    rw [List.nodup_append]
    refine ⟨hreg, List.nodup_singleton j, fun a ha hb => ?_⟩
    rw [List.mem_singleton] at hb
    exact h (hb ▸ ha)

theorem disconnect_nodup (reg : Registry) (hreg : reg.Nodup) (j : String) :
    (ConnectionManager.disconnect reg j).Nodup := by
  simp only [ConnectionManager.disconnect]
  split
  · exact hreg.erase j
  · exact hreg

theorem runOps_append_op (ops : List Op) (op : Op) :
    runOps (ops ++ [op]) = applyOp (runOps ops) op := by
  simp [runOps, List.foldl_append]

theorem lastAction_append_connect (ops : List Op) (j id : String) :
    lastAction (ops ++ [Op.connect j]) id =
      if j = id then some true else lastAction ops id := by
  simp [lastAction, List.foldl_append]

theorem lastAction_append_disconnect (ops : List Op) (j id : String) :
    lastAction (ops ++ [Op.disconnect j]) id =
      if j = id then some false else lastAction ops id := by
  simp [lastAction, List.foldl_append]

theorem runOps_nodup (ops : List Op) : (runOps ops).Nodup := by
  induction ops using List.reverseRecOn with
  | nil => simp [runOps]
  | append_singleton ops op ih =>
    rw [runOps_append_op]
    cases op with
    | connect j => exact connect_nodup _ ih j
    | disconnect j => exact disconnect_nodup _ ih j

theorem mem_runOps_iff (ops : List Op) (id : String) :
    id ∈ runOps ops ↔ lastAction ops id = some true := by
  induction ops using List.reverseRecOn with
  | nil => simp [runOps, lastAction]
  | append_singleton ops op ih =>
    rw [runOps_append_op]
    cases op with
    | connect j =>
      rw [lastAction_append_connect,
        show applyOp (runOps ops) (Op.connect j) = ConnectionManager.connect (runOps ops) j from rfl,
        mem_connect]
      by_cases hj : j = id
      · subst hj
        simp
      · have hij : id ≠ j := fun e => hj e.symm
        rw [if_neg hj, ih]
        simp [hij]
    | disconnect j =>
      rw [lastAction_append_disconnect,
        show applyOp (runOps ops) (Op.disconnect j) = ConnectionManager.disconnect (runOps ops) j from rfl,
        mem_disconnect _ (runOps_nodup ops)]
      by_cases hj : j = id
      · subst hj
        simp
      · have hij : id ≠ j := fun e => hj e.symm
        rw [if_neg hj, ih]
        simp [hij]

/-- C1: after any finite sequence of connect/disconnect operations starting
from the empty registry, an identity is in the online set (the key set of
`active_connections`) iff its most recent operation in the sequence was a
connect; and `disconnect` of an absent identity is a no-op. -/
theorem c1_online_set_is_last_connect (ops : List Op) (id : String) :
    (id ∈ runOps ops ↔ lastAction ops id = some true) ∧
    ∀ reg : Registry, id ∉ reg → ConnectionManager.disconnect reg id = reg := by
  refine ⟨mem_runOps_iff ops id, fun reg h => ?_⟩
  simp [ConnectionManager.disconnect, h]

/-- Witness for C1 at a concrete operation sequence and registry. -/
theorem c1_online_set_is_last_connect_witness :
    ("B" ∈ runOps [Op.connect "A", Op.connect "B", Op.disconnect "A"] ↔
      lastAction [Op.connect "A", Op.connect "B", Op.disconnect "A"] "B" = some true) ∧
    ConnectionManager.disconnect ["A"] "B" = ["A"] :=
  ⟨(c1_online_set_is_last_connect [Op.connect "A", Op.connect "B", Op.disconnect "A"] "B").1,
   (c1_online_set_is_last_connect [] "B").2 ["A"] (by decide)⟩

/-! Claims about send failures during a broadcast (C8). -/

/-- C8 counterexample: with connections A, B, C in the registry and B's
handle broken, the broadcast delivers only to A — C is connected and
healthy yet receives nothing, because B's failed `send_text` aborts the
loop.  This refutes the claim that a failed individual send does not abort
delivery to the remaining recipients. -/
theorem c8_failed_send_aborts_counterexample :
    broadcastFallible ["B"] ["A", "B", "C"] = (["A"], true) ∧
    "C" ∉ (broadcastFallible ["B"] ["A", "B", "C"]).1 := by
  refine ⟨rfl, ?_⟩
  decide

/-- C8 amended: the delivery loops have no per-send error handling, so the
first failing send raises and aborts the loop: exactly the recipients
iterated before the first broken handle receive the envelope, every
recipient from the first broken handle onward receives nothing, and the
exception escapes iff some target handle is broken. -/
theorem c8_failed_send_aborts_loop (broken : List String) (reg : Registry) :
    broadcastFallible broken reg =
      (reg.takeWhile (fun c => !decide (c ∈ broken)),
       reg.any (fun c => decide (c ∈ broken))) := by
  induction reg with
  | nil => rfl
  | cons c rest ih =>
    by_cases h : c ∈ broken
    · simp [broadcastFallible, h]
    · simp [broadcastFallible, h, ih]

/-! Claims about malformed inbound events (C2). -/

/-- C2 counterexample: the sole connection A sends a malformed event
(missing `recipient`) followed by a well-formed broadcast event.  The loop
does not skip the malformed event and continue: it crashes on the uncaught
`KeyError`, and the well-formed event is never processed.  This refutes the
claim that the per-connection loop continues to receive the next event. -/
theorem c2_malformed_event_counterexample :
    (runLoop ["A"] "A" "t0" ⟨[], 1, []⟩
      [⟨none, none, none, some "hola", none⟩,
       ⟨none, none, some "Chat General", some "hola", none⟩]).handledAll = false ∧
    runLoop ["A"] "A" "t0" ⟨[], 1, []⟩
      [⟨none, none, none, some "hola", none⟩,
       ⟨none, none, some "Chat General", some "hola", none⟩] =
      .crashed ⟨[], 1, []⟩ [] [⟨none, none, some "Chat General", some "hola", none⟩] :=
  ⟨rfl, rfl⟩

/-- C2 amended: an inbound event with a missing required field raises an
uncaught `KeyError` in the receive loop (the endpoint's `except` clause
only catches `WebSocketDisconnect`), so the loop terminates with no send
and with every later event unprocessed; the registry and db are left as
they were, in particular the sender's registry entry is not removed by the
handler. -/
theorem c2_malformed_event_crashes_loop (reg : Registry) (db : DB) (cid t : String)
    (ev : InEvent) (rest : List InEvent)
    (h : requiredFieldMissing ev = true) :
    handleEvent reg db cid ev t = .keyError ∧
    runLoop reg cid t db (ev :: rest) = .crashed db [] rest := by
  obtain ⟨act, oid, orec, omsg, og⟩ := ev
  have hk : handleEvent reg db cid ⟨act, oid, orec, omsg, og⟩ t = .keyError := by
    simp only [requiredFieldMissing] at h
    simp only [handleEvent]
    by_cases hd : act.getD "message" = "delete"
    · simp only [if_pos hd] at h ⊢
      cases oid with
      | none => rfl
      | some v => simp at h
    · simp only [if_neg hd] at h ⊢
      cases orec with
      | none => rfl
      | some r =>
        cases omsg with
        | none => rfl
        | some m => simp at h
  exact ⟨hk, by simp only [runLoop, hk]⟩

/-- Witness for C2's amended theorem at a concrete malformed event. -/
theorem c2_malformed_event_crashes_loop_witness :
    requiredFieldMissing ⟨none, none, none, some "hola", none⟩ = true ∧
    (handleEvent ["A"] ⟨[], 1, []⟩ "A" ⟨none, none, none, some "hola", none⟩ "t0" = .keyError ∧
     runLoop ["A"] "A" "t0" ⟨[], 1, []⟩ [⟨none, none, none, some "hola", none⟩] =
       .crashed ⟨[], 1, []⟩ [] []) :=
  ⟨by decide,
   c2_malformed_event_crashes_loop ["A"] ⟨[], 1, []⟩ "A" "t0"
     ⟨none, none, none, some "hola", none⟩ [] (by decide)⟩

/-! Claims about message routing (C3, C4, C9). -/

/-- C3: a message event whose literal recipient is the sentinel
"Chat General" is broadcast to every currently connected identity,
whatever the is_group flag says (the sentinel test comes first in the
endpoint): the send list targets exactly the registry key list — N
deliveries to N connections — and every copy is the same envelope, with
the same assigned id and timestamp. -/
theorem c3_sentinel_broadcasts_to_all (reg : Registry) (db : DB) (cid msg t : String)
    (ev : InEvent)
    (hact : ev.action.getD "message" ≠ "delete")
    (hrec : ev.recipient = some "Chat General")
    (hmsg : ev.message = some msg) :
    handleEvent reg db cid ev t =
      .ok (guardar_mensaje_db db cid "Chat General" msg t (ev.is_group.getD false)).2
        (broadcast reg (chatMsg db.next_id cid "Chat General" msg t (ev.is_group.getD false))) ∧
    (broadcast reg (chatMsg db.next_id cid "Chat General" msg t (ev.is_group.getD false))).map
        Prod.fst = reg ∧
    (broadcast reg (chatMsg db.next_id cid "Chat General" msg t
        (ev.is_group.getD false))).length = reg.length ∧
    ∀ p ∈ broadcast reg (chatMsg db.next_id cid "Chat General" msg t (ev.is_group.getD false)),
      p.2 = chatMsg db.next_id cid "Chat General" msg t (ev.is_group.getD false) := by
  refine ⟨?_, ?_, ?_, ?_⟩
  · simp only [handleEvent, if_neg hact, hrec, hmsg]
    rfl
  · simp [broadcast, Function.comp_def]
  · simp [broadcast]
  · intro p hp
    simp only [broadcast, List.mem_map] at hp
    obtain ⟨c, hc, rfl⟩ := hp
    rfl

/-- Witness for C3 with two connections and is_group set to true, showing
the sentinel takes precedence over the flag. -/
theorem c3_sentinel_broadcasts_to_all_witness :
    handleEvent ["A", "B"] ⟨[], 1, []⟩ "A"
        ⟨none, none, some "Chat General", some "hi", some true⟩ "t0" =
      .ok ⟨[⟨1, "A", "Chat General", "hi", "t0", true⟩], 2, []⟩
        [("A", chatMsg 1 "A" "Chat General" "hi" "t0" true),
         ("B", chatMsg 1 "A" "Chat General" "hi" "t0" true)] :=
  (c3_sentinel_broadcasts_to_all ["A", "B"] ⟨[], 1, []⟩ "A" "hi" "t0"
    ⟨none, none, some "Chat General", some "hi", some true⟩ (by decide) rfl rfl).1

/-- C4: a single-user message (recipient not the sentinel, is_group false)
to an offline recipient is still persisted, echoes exactly one copy to the
sender, and delivers nothing to the recipient; no error is raised (the
result is an ordinary `ok`) and event handling never touches the registry
(the registry is a read-only argument of `handleEvent`). -/
theorem c4_offline_recipient_echo_only (reg : Registry) (db : DB) (cid rcpt msg t : String)
    (ev : InEvent)
    (hact : ev.action.getD "message" ≠ "delete")
    (hrec : ev.recipient = some rcpt)
    (hmsg : ev.message = some msg)
    (hgrp : ev.is_group.getD false = false)
    (hnot : rcpt ≠ "Chat General")
    (hoff : rcpt ∉ reg)
    (hon : cid ∈ reg) :
    handleEvent reg db cid ev t =
      .ok (guardar_mensaje_db db cid rcpt msg t false).2
        [(cid, chatMsg db.next_id cid rcpt msg t false)] ∧
    ∀ p ∈ [(cid, chatMsg db.next_id cid rcpt msg t false)], p.1 ≠ rcpt := by
  constructor
  · simp only [handleEvent, if_neg hact, hrec, hmsg, hgrp, if_neg hnot]
    simp [send_personal_message, hoff, hon, guardar_mensaje_db]
  · intro p hp
    rw [List.mem_singleton] at hp
    subst hp
    exact fun e => hoff (e ▸ hon)

/-- Witness for C4: A messages offline C while only A and B are connected. -/
theorem c4_offline_recipient_echo_only_witness :
    handleEvent ["A", "B"] ⟨[], 1, []⟩ "A" ⟨none, none, some "C", some "hi", none⟩ "t0" =
      .ok ⟨[⟨1, "A", "C", "hi", "t0", false⟩], 2, []⟩
        [("A", chatMsg 1 "A" "C" "hi" "t0" false)] :=
  (c4_offline_recipient_echo_only ["A", "B"] ⟨[], 1, []⟩ "A" "C" "hi" "t0"
    ⟨none, none, some "C", some "hi", none⟩ (by decide) rfl rfl rfl (by decide)
    (by decide) (by decide)).1

/-- C9: a single-user message whose recipient is the sender's own identity
is sent to that same connection twice — once by the recipient lookup and
once by the sender echo — with the same envelope both times. -/
theorem c9_self_message_delivered_twice (reg : Registry) (db : DB) (cid msg t : String)
    (ev : InEvent)
    (hact : ev.action.getD "message" ≠ "delete")
    (hrec : ev.recipient = some cid)
    (hmsg : ev.message = some msg)
    (hgrp : ev.is_group.getD false = false)
    (hnot : cid ≠ "Chat General")
    (hon : cid ∈ reg) :
    handleEvent reg db cid ev t =
      .ok (guardar_mensaje_db db cid cid msg t false).2
        [(cid, chatMsg db.next_id cid cid msg t false),
         (cid, chatMsg db.next_id cid cid msg t false)] := by
  simp only [handleEvent, if_neg hact, hrec, hmsg, hgrp, if_neg hnot]
  simp [send_personal_message, hon, guardar_mensaje_db]

/-- Witness for C9: A messages A while A and B are connected. -/
theorem c9_self_message_delivered_twice_witness :
    handleEvent ["A", "B"] ⟨[], 1, []⟩ "A" ⟨none, none, some "A", some "hi", none⟩ "t0" =
      .ok ⟨[⟨1, "A", "A", "hi", "t0", false⟩], 2, []⟩
        [("A", chatMsg 1 "A" "A" "hi" "t0" false),
         ("A", chatMsg 1 "A" "A" "hi" "t0" false)] :=
  c9_self_message_delivered_twice ["A", "B"] ⟨[], 1, []⟩ "A" "hi" "t0"
    ⟨none, none, some "A", some "hi", none⟩ (by decide) rfl rfl rfl (by decide) (by decide)

/-! Claims about message deletion (C5). -/

theorem length_filter_not_lt_iff_any {α : Type} (l : List α) (q : α → Bool) :
    (l.filter (fun a => !q a)).length < l.length ↔ l.any q = true := by
  induction l with
  | nil => simp
  | cons a l ih =>
    cases hq : q a
    · simpa [List.filter_cons, hq, Nat.succ_lt_succ_iff] using ih
    · simp only [List.filter_cons, hq, Bool.not_true, List.any_cons, Bool.true_or, iff_true]
      exact Nat.lt_succ_of_le (List.length_filter_le _ _)

theorem borrar_mensaje_db_fst (db : DB) (msg_id : Nat) (sender : String) :
    (borrar_mensaje_db db msg_id sender).1 =
      db.mensajes.any (fun m => decide (m.id = msg_id ∧ m.sender = sender)) := by
  simp only [borrar_mensaje_db]
  rw [Bool.eq_iff_iff]
  simp only [decide_eq_true_eq]
  rw [Nat.sub_pos_iff_lt]
  exact length_filter_not_lt_iff_any db.mensajes _

/-- C5: a delete event broadcasts `DELETE{id}` to every currently connected
identity (the requester included, being a registry key) exactly when a
stored message with that id and with stored sender equal to the requester
existed and was removed; otherwise there are zero sends, the database is
unchanged, and any message whose stored sender differs from the requester
stays retrievable through the history query. -/
theorem c5_delete_broadcast_iff_owner (reg : Registry) (db : DB) (cid t : String)
    (ev : InEvent) (msg_id : Nat)
    (hact : ev.action.getD "message" = "delete")
    (hid : ev.id = some msg_id) :
    handleEvent reg db cid ev t =
      .ok (borrar_mensaje_db db msg_id cid).2
        (if db.mensajes.any (fun m => decide (m.id = msg_id ∧ m.sender = cid))
         then broadcast reg (deleteMsg msg_id) else []) ∧
    (db.mensajes.any (fun m => decide (m.id = msg_id ∧ m.sender = cid)) = false →
      (borrar_mensaje_db db msg_id cid).2 = db) ∧
    ∀ m ∈ obtener_mensajes_db db, m.sender ≠ cid →
      m ∈ obtener_mensajes_db (borrar_mensaje_db db msg_id cid).2 := by
  refine ⟨?_, ?_, ?_⟩
  · simp only [handleEvent, if_pos hact, hid]
    rw [borrar_mensaje_db_fst]
    cases h : db.mensajes.any (fun m => decide (m.id = msg_id ∧ m.sender = cid)) <;> simp [h]
  · intro h
    simp only [borrar_mensaje_db]
    have hall : ∀ m ∈ db.mensajes, (!decide (m.id = msg_id ∧ m.sender = cid)) = true := by
      intro m hm
      cases hd : decide (m.id = msg_id ∧ m.sender = cid)
      · simp
      · exfalso
        have hx : db.mensajes.any (fun m => decide (m.id = msg_id ∧ m.sender = cid)) = true :=
          List.any_eq_true.mpr ⟨m, hm, hd⟩
        rw [h] at hx
        exact Bool.false_ne_true hx
    rw [List.filter_eq_self.mpr hall]
  · intro m hm hs
    simp only [obtener_mensajes_db, borrar_mensaje_db] at *
    rw [List.mem_filter]
    exact ⟨hm, by simp [hs]⟩

/-- Witness for C5: B's attempt to delete A's message 1 yields no sends and
leaves the message; A's own delete of message 1 broadcasts to both. -/
theorem c5_delete_broadcast_iff_owner_witness :
    handleEvent ["A", "B"] ⟨[⟨1, "A", "B", "hi", "t0", false⟩], 2, []⟩ "B"
        ⟨some "delete", some 1, none, none, none⟩ "t1" =
      .ok (borrar_mensaje_db ⟨[⟨1, "A", "B", "hi", "t0", false⟩], 2, []⟩ 1 "B").2
        (if (⟨[⟨1, "A", "B", "hi", "t0", false⟩], 2, []⟩ : DB).mensajes.any
            (fun m => decide (m.id = 1 ∧ m.sender = "B"))
         then broadcast ["A", "B"] (deleteMsg 1) else []) ∧
    (⟨1, "A", "B", "hi", "t0", false⟩ : StoredMsg) ∈
      obtener_mensajes_db (borrar_mensaje_db ⟨[⟨1, "A", "B", "hi", "t0", false⟩], 2, []⟩ 1 "B").2 :=
  ⟨(c5_delete_broadcast_iff_owner ["A", "B"] ⟨[⟨1, "A", "B", "hi", "t0", false⟩], 2, []⟩ "B" "t1"
      ⟨some "delete", some 1, none, none, none⟩ 1 rfl rfl).1,
   (c5_delete_broadcast_iff_owner ["A", "B"] ⟨[⟨1, "A", "B", "hi", "t0", false⟩], 2, []⟩ "B" "t1"
      ⟨some "delete", some 1, none, none, none⟩ 1 rfl rfl).2.2
     ⟨1, "A", "B", "hi", "t0", false⟩ (by decide) (by decide)⟩

/-! Claims about group routing (C6, C10). -/

theorem obtener_info_grupo_db_guardar (db : DB) (s r m ts : String) (g : Bool) (n : String) :
    obtener_info_grupo_db (guardar_mensaje_db db s r m ts g).2 n =
      obtener_info_grupo_db db n := rfl

/-- C6: a group message (is_group true, recipient not the sentinel) resolves
the member list from the database state at handling time — `handleEvent`
takes the current db, so a membership change between two messages is
reflected in the very next send — and delivers one copy of the envelope to
exactly the members currently in the registry, in member-list order; the
sender gets a copy iff the sender appears in the member list just read,
with no special-casing. -/
theorem c6_group_send_uses_current_members (reg : Registry) (db : DB)
    (cid gname msg t : String) (ev : InEvent) (grupo : Grupo)
    (hact : ev.action.getD "message" ≠ "delete")
    (hrec : ev.recipient = some gname)
    (hmsg : ev.message = some msg)
    (hgrp : ev.is_group.getD false = true)
    (hnot : gname ≠ "Chat General")
    (hlook : obtener_info_grupo_db db gname = some grupo) :
    handleEvent reg db cid ev t =
      .ok (guardar_mensaje_db db cid gname msg t true).2
        (broadcast_to_group reg (chatMsg db.next_id cid gname msg t true) grupo.miembros) ∧
    (broadcast_to_group reg (chatMsg db.next_id cid gname msg t true) grupo.miembros).map
        Prod.fst = grupo.miembros.filter (fun m => decide (m ∈ reg)) ∧
    (∀ p ∈ broadcast_to_group reg (chatMsg db.next_id cid gname msg t true) grupo.miembros,
      p.2 = chatMsg db.next_id cid gname msg t true) ∧
    (cid ∈ reg →
      ((cid, chatMsg db.next_id cid gname msg t true) ∈
          broadcast_to_group reg (chatMsg db.next_id cid gname msg t true) grupo.miembros ↔
        cid ∈ grupo.miembros)) := by
  refine ⟨?_, ?_, ?_, ?_⟩
  · simp only [handleEvent, if_neg hact, hrec, hmsg, hgrp, if_neg hnot,
      obtener_info_grupo_db_guardar, hlook]
    rfl
  · simp [broadcast_to_group, Function.comp_def]
  · intro p hp
    simp only [broadcast_to_group, List.mem_map] at hp
    obtain ⟨c, hc, rfl⟩ := hp
    rfl
  · intro hcid
    simp [broadcast_to_group, List.mem_filter, hcid]

/-- Witness for C6: group "g" has members B and A; A sends to it while A
and B are connected, and both members receive the same envelope. -/
theorem c6_group_send_uses_current_members_witness :
    handleEvent ["A", "B"] ⟨[], 1, [("g", ⟨"B", ["B", "A"]⟩)]⟩ "A"
        ⟨none, none, some "g", some "hi", some true⟩ "t0" =
      .ok ⟨[⟨1, "A", "g", "hi", "t0", true⟩], 2, [("g", ⟨"B", ["B", "A"]⟩)]⟩
        [("B", chatMsg 1 "A" "g" "hi" "t0" true),
         ("A", chatMsg 1 "A" "g" "hi" "t0" true)] :=
  (c6_group_send_uses_current_members ["A", "B"] ⟨[], 1, [("g", ⟨"B", ["B", "A"]⟩)]⟩
    "A" "g" "hi" "t0" ⟨none, none, some "g", some "hi", some true⟩ ⟨"B", ["B", "A"]⟩
    (by decide) rfl rfl rfl (by decide) rfl).1

/-- C10: a group message naming a group absent from the database is still
persisted (it gets the fresh durable id), produces zero sends — not even to
the sender — raises no error, and the receive loop goes on to the next
event with only the database advanced. -/
theorem c10_missing_group_message_dropped (reg : Registry) (db : DB)
    (cid gname msg t : String) (ev : InEvent) (rest : List InEvent)
    (hact : ev.action.getD "message" ≠ "delete")
    (hrec : ev.recipient = some gname)
    (hmsg : ev.message = some msg)
    (hgrp : ev.is_group.getD false = true)
    (hnot : gname ≠ "Chat General")
    (hlook : obtener_info_grupo_db db gname = none) :
    handleEvent reg db cid ev t = .ok (guardar_mensaje_db db cid gname msg t true).2 [] ∧
    (guardar_mensaje_db db cid gname msg t true).2.mensajes =
      db.mensajes ++ [⟨db.next_id, cid, gname, msg, t, true⟩] ∧
    runLoop reg cid t db (ev :: rest) =
      runLoop reg cid t (guardar_mensaje_db db cid gname msg t true).2 rest := by
  have h1 : handleEvent reg db cid ev t =
      .ok (guardar_mensaje_db db cid gname msg t true).2 [] := by
    simp only [handleEvent, if_neg hact, hrec, hmsg, hgrp, if_neg hnot,
      obtener_info_grupo_db_guardar, hlook]
    simp
  refine ⟨h1, rfl, ?_⟩
  simp only [runLoop, h1]
  cases runLoop reg cid t (guardar_mensaje_db db cid gname msg t true).2 rest <;> simp

/-- Witness for C10: A sends to the nonexistent group "nope" while A and B
are connected; the message is stored with id 1 and nobody receives it. -/
theorem c10_missing_group_message_dropped_witness :
    handleEvent ["A", "B"] ⟨[], 1, []⟩ "A"
        ⟨none, none, some "nope", some "hi", some true⟩ "t0" =
      .ok ⟨[⟨1, "A", "nope", "hi", "t0", true⟩], 2, []⟩ [] ∧
    runLoop ["A", "B"] "A" "t0" ⟨[], 1, []⟩ [⟨none, none, some "nope", some "hi", some true⟩] =
      runLoop ["A", "B"] "A" "t0" ⟨[⟨1, "A", "nope", "hi", "t0", true⟩], 2, []⟩ [] :=
  ⟨(c10_missing_group_message_dropped ["A", "B"] ⟨[], 1, []⟩ "A" "nope" "hi" "t0"
      ⟨none, none, some "nope", some "hi", some true⟩ [] (by decide) rfl rfl rfl
      (by decide) rfl).1,
   (c10_missing_group_message_dropped ["A", "B"] ⟨[], 1, []⟩ "A" "nope" "hi" "t0"
      ⟨none, none, some "nope", some "hi", some true⟩ [] (by decide) rfl rfl rfl
      (by decide) rfl).2.2⟩

/-! Claims about presence broadcasting (C7). -/

/-- C7 counterexample: after A disconnects while B remains connected, B
receives exactly one envelope, and that envelope carries the online list
under the wire key "online_users" — there is no "onlineUsers" field, so
the claimed wire form `{type: "STATUS", onlineUsers: [...]}` does not
match the code. -/
theorem c7_wire_field_name_counterexample :
    (onDisconnect ["A", "B"] "A").2 = [("B", statusMsg ["B"])] ∧
    (statusMsg ["B"]).lookup "onlineUsers" = none ∧
    (statusMsg ["B"]).lookup "online_users" = some (JVal.arr [JVal.str "B"]) :=
  ⟨rfl, rfl, rfl⟩

/-- C7 amended: on every connect and on every disconnect, each currently
connected handle receives one status envelope whose "type" field is
"STATUS" and whose "online_users" field (not "onlineUsers") is the current
online list; in particular after A disconnects while B stays connected, B
receives `{type: "STATUS", online_users: ["B"]}`. -/
theorem c7_status_broadcast_on_change (reg : Registry) (cid : String) (l : List String) :
    ((onConnect reg cid).2.map Prod.fst = (onConnect reg cid).1 ∧
      ∀ p ∈ (onConnect reg cid).2, p.2 = statusMsg (onConnect reg cid).1) ∧
    ((onDisconnect reg cid).2.map Prod.fst = (onDisconnect reg cid).1 ∧
      ∀ p ∈ (onDisconnect reg cid).2, p.2 = statusMsg (onDisconnect reg cid).1) ∧
    (statusMsg l).lookup "type" = some (JVal.str "STATUS") ∧
    (statusMsg l).lookup "online_users" = some (JVal.arr (l.map JVal.str)) ∧
    onDisconnect ["A", "B"] "A" = (["B"], [("B", statusMsg ["B"])]) := by
  refine ⟨⟨?_, ?_⟩, ⟨?_, ?_⟩, rfl, rfl, rfl⟩
  · simp [onConnect, broadcast_online_list, broadcast, Function.comp_def]
  · intro p hp
    simp only [onConnect, broadcast_online_list, broadcast, List.mem_map] at hp
    obtain ⟨c, hc, rfl⟩ := hp
    rfl
  · simp [onDisconnect, broadcast_online_list, broadcast, Function.comp_def]
  · intro p hp
    simp only [onDisconnect, broadcast_online_list, broadcast, List.mem_map] at hp
    obtain ⟨c, hc, rfl⟩ := hp
    rfl

/-- Witness for C7's amended theorem: the concrete A-disconnects scenario. -/
theorem c7_status_broadcast_on_change_witness :
    (statusMsg ["B"]).lookup "online_users" = some (JVal.arr [JVal.str "B"]) ∧
    (("B", statusMsg ["B"]) : String × Json).2 = statusMsg (onDisconnect ["A", "B"] "A").1 :=
  ⟨(c7_status_broadcast_on_change ["A", "B"] "A" ["B"]).2.2.2.1,
   (c7_status_broadcast_on_change ["A", "B"] "A" ["B"]).2.1.2 ("B", statusMsg ["B"])
     (List.Mem.head _)⟩

end MiTecChat
